import Mathlib

/-!
Shallow embedding of `src/main.py` (a FastAPI SMS backend) in Lean 4.

Python strings are modelled as `List Char` (a sequence of code points).
Character classes are Unicode-aware where the distinction matters: the
`str.isdigit()` class and the regex `\d` class (category Nd) are modelled
as distinct predicates, exact on every character this file reasons about,
since `isdigit` also accepts non-Nd digit characters such as superscripts.
Documents of the external
document store are association lists from keys to `Value`s. The external
collaborators that are not part of `src/` (the `database` module and the
network) are modelled explicitly: the network as a `NetOutcome` argument and
the store as a `Store` thread through the handlers.
-/

namespace SmsApi

/-- A value stored in a document / JSON payload field. -/
inductive Value where
  | vnull
  | vstr (s : List Char)
  | vobjid (s : List Char)
  | vdatetime (iso : List Char)
  deriving DecidableEq, Repr

/-- `isinstance(v, datetime)` for document values. -/
def Value.isDatetime : Value → Bool
  | .vdatetime _ => true
  | _ => false

/-- Python `str(v)` as used on a store-internal identifier. -/
def pyStr : Value → List Char
  | .vnull => "None".toList
  | .vstr s => s
  | .vobjid s => s
  | .vdatetime iso => iso

/-- `datetime.isoformat()` rendering used by `serialize_doc`. -/
def isoRender : Value → Value
  | .vdatetime iso => .vstr iso
  | v => v

/-- A document: an association list with (dict-like) unique keys. -/
abbrev Doc := List (List Char × Value)

/-- `key in d` on a Python dict. -/
def containsKey (d : Doc) (k : List Char) : Bool :=
  d.any (fun p => p.1 == k)

/-- `d[key]` lookup (first binding). -/
def lookupDoc (d : Doc) (k : List Char) : Option Value :=
  (d.find? (fun p => p.1 == k)).map (fun p => p.2)

/-- `d.pop(key)`: the dict with the binding for `key` removed. -/
def eraseKey (d : Doc) (k : List Char) : Doc :=
  d.filter (fun p => p.1 != k)

/-- `d[key] = v`: update in place if present, else append (dict order). -/
def setKey (d : Doc) (k : List Char) (v : Value) : Doc :=
  if containsKey d k then
    d.map (fun p => if p.1 == k then (k, v) else p)
  else
    d ++ [(k, v)]

/-- `serialize_doc` from `src/main.py`: rename `_id` to a string `id`,
render every datetime value with `isoformat()`. -/
def serialize_doc (doc : Doc) : Doc :=
  let d :=
    if containsKey doc ("_id".toList) then
      setKey (eraseKey doc ("_id".toList)) ("id".toList)
        (.vstr (pyStr ((lookupDoc doc ("_id".toList)).getD .vnull)))
    else
      doc
  d.map (fun p => (p.1, isoRender p.2))

/-- Python truthiness of an `os.getenv` result (None or a string). -/
def truthy : Option (List Char) → Bool
  | some s => !s.isEmpty
  | none => false

/-- The three provider credentials read from the environment. -/
structure Credentials where
  accountSid : Option (List Char)
  authToken : Option (List Char)
  fromAddr : Option (List Char)
  deriving DecidableEq, Repr

/-- `TWILIO_ACCOUNT_SID and TWILIO_AUTH_TOKEN and TWILIO_FROM` is truthy. -/
def Credentials.configured (c : Credentials) : Bool :=
  truthy c.accountSid && truthy c.authToken && truthy c.fromAddr

/-- The fields of the parsed provider response that the code reads via
`payload.get`; `none` means the key is absent (a parse failure yields the
payload `{"raw": ...}`, i.e. all three fields absent). -/
structure Payload where
  status : Option (List Char)
  sid : Option (List Char)
  message : Option (List Char)
  deriving DecidableEq, Repr

/-- Outcome of the single `requests.post`: either an HTTP response with a
status code and parsed payload, or a raised transport exception. -/
inductive NetOutcome where
  | response (code : Nat) (payload : Payload)
  | exn (text : List Char)
  deriving DecidableEq, Repr

/-- The normalized result dictionary returned by `send_sms_via_twilio`. -/
structure DeliveryResult where
  provider : Option (List Char)
  status : List Char
  sid : Option (List Char)
  error : Option (List Char)
  deriving DecidableEq, Repr

def simulationError : List Char :=
  "Twilio credentials not configured. Message queued (simulation).".toList

/-- `f"HTTP {code}"`. -/
def httpCodeError (code : Nat) : List Char :=
  "HTTP ".toList ++ (toString code).toList

/-- `payload.get("message") or f"HTTP {code}"` (Python `or`: `None` and the
empty string both fall through to the generic string). -/
def failureError (payload : Payload) (code : Nat) : List Char :=
  match payload.message with
  | some m => if m.isEmpty then httpCodeError code else m
  | none => httpCodeError code

/-- `send_sms_via_twilio` from `src/main.py`. The network is passed as the
`net` argument; the simulation branch never inspects it. -/
def send_sms_via_twilio (creds : Credentials) (net : NetOutcome)
    (toAddr body : List Char) : DeliveryResult :=
  if !creds.configured then
    { provider := some "twilio".toList
      status := "queued".toList
      sid := none
      error := some simulationError }
  else
    match net with
    | .response code payload =>
      if 200 ≤ code ∧ code < 300 then
        { provider := some "twilio".toList
          status := payload.status.getD "sent".toList
          sid := payload.sid
          error := none }
      else
        { provider := some "twilio".toList
          status := "failed".toList
          sid := payload.sid
          error := some (failureError payload code) }
    | .exn text =>
      { provider := some "twilio".toList
        status := "failed".toList
        sid := none
        error := some text }

/-- The character class `\d` of Python's `re` module on `str`: Unicode
category Nd (decimal digits). Modelled over the ASCII digits and the
decimal-digit blocks relevant to this development (Arabic-Indic, extended
Arabic-Indic, Devanagari, fullwidth); exact on every character this file
reasons about. -/
def isRegexDigit (c : Char) : Bool :=
  ('0' ≤ c && c ≤ '9')
  || (0x660 ≤ c.val && c.val ≤ 0x669)
  || (0x6F0 ≤ c.val && c.val ≤ 0x6F9)
  || (0x966 ≤ c.val && c.val ≤ 0x96F)
  || (0xFF10 ≤ c.val && c.val ≤ 0xFF19)

/-- Characters with Unicode `Numeric_Type=Digit` that are not in category
Nd: accepted by `str.isdigit()` but not matched by `\d`. Superscript digits
(`¹`, `²`, `³`, `⁰`, `⁴`–`⁹`), subscript digits (`₀`–`₉`) and circled
digits (`①`–`⑨`); exact on every character this file reasons about. -/
def isDigitNotNd (c : Char) : Bool :=
  c.val == 0xB2 || c.val == 0xB3 || c.val == 0xB9
  || c.val == 0x2070 || (0x2074 ≤ c.val && c.val ≤ 0x2079)
  || (0x2080 ≤ c.val && c.val ≤ 0x2089)
  || (0x2460 ≤ c.val && c.val ≤ 0x2468)

/-- Python's per-character `str.isdigit()` test: true for the category-Nd
decimal digits and also for `Numeric_Type=Digit` characters such as
superscripts — strictly wider than the regex class `\d`. -/
def pyCharIsdigit (c : Char) : Bool :=
  isRegexDigit c || isDigitNotNd c

/-- Python `s.isdigit()`: non-empty and every character isdigit. -/
def pyIsdigit (s : List Char) : Bool :=
  !s.isEmpty && s.all pyCharIsdigit

/-- `payload.to.startswith("+")`. -/
def startsWithPlus : List Char → Bool
  | [] => false
  | c :: _ => c == '+'

/-- The `if` condition of the phone check in `create_message`
(`src/main.py` line 151), verbatim. -/
def invalidPhone (toAddr : List Char) : Bool :=
  !startsWithPlus toAddr || !pyIsdigit (toAddr.drop 1)
    || decide (toAddr.length < 8) || decide (toAddr.length > 18)

/-- Modelled from the spec: the regular expression `^\+\d{7,17}$` named by
the claim — a leading `+` followed by 7 to 17 characters of the class `\d`
(Unicode category Nd). -/
def matchesPhonePattern : List Char → Bool
  | [] => false
  | c :: rest =>
    c == '+' && rest.all isRegexDigit
      && decide (7 ≤ rest.length) && decide (rest.length ≤ 17)

/-- The shape the handler's check actually enforces: a leading `+` followed
by 7 to 17 characters of Python's isdigit class (which is strictly wider
than `\d`). -/
def matchesIsdigitPattern : List Char → Bool
  | [] => false
  | c :: rest =>
    c == '+' && rest.all pyCharIsdigit
      && decide (7 ≤ rest.length) && decide (rest.length ≤ 17)

/-- The `Message` pydantic document built by `create_message` before
persistence (the fields of `schemas.Message` that `create_message` sets). -/
structure MessageRecord where
  toAddr : List Char
  body : List Char
  status : List Char
  provider : Option (List Char)
  sid : Option (List Char)
  error : Option (List Char)
  deriving DecidableEq, Repr

def optVal : Option (List Char) → Value
  | some s => .vstr s
  | none => .vnull

/-- The stored form of a message record, with the store-assigned `_id`. -/
def recordToDoc (oid : List Char) (r : MessageRecord) : Doc :=
  [("_id".toList, .vobjid oid),
   ("to".toList, .vstr r.toAddr),
   ("body".toList, .vstr r.body),
   ("status".toList, .vstr r.status),
   ("provider".toList, optVal r.provider),
   ("sid".toList, optVal r.sid),
   ("error".toList, optVal r.error)]

/-- Modelled from the spec: the external document store behind the missing
`database` module, a single `message` collection holding documents, with a
counter generating fresh store-internal identifiers. -/
structure Store where
  docs : List Doc
  nextId : Nat
  deriving DecidableEq, Repr

/-- Modelled from the spec: `create_document(collection, doc) -> id` of the
missing `database` module — `insert(collection, document) -> id`: appends the
document (with a fresh store-internal `_id`) and returns the new identifier. -/
def create_document (store : Store) (r : MessageRecord) :
    List Char × Store :=
  let oid := (toString store.nextId).toList
  (oid, { docs := store.docs ++ [recordToDoc oid r], nextId := store.nextId + 1 })

/-- Modelled from the spec: `get_documents(collection, filter, limit)` of the
missing `database` module — `query(collection, filter, limit) -> list of
documents`: returns at most `limit` documents of the collection. -/
def get_documents (store : Store) (limit : Nat) : List Doc :=
  store.docs.take limit

/-- Result of the `POST /api/messages` handler: either an `HTTPException`
(status code and detail) or the 200 response built from the persisted record,
its store id and the `created_at` timestamp. -/
inductive CreateResult where
  | httpError (code : Nat) (detail : List Char)
  | ok (record : MessageRecord) (oid : List Char) (createdAt : List Char)
  deriving DecidableEq, Repr

def CreateResult.isHttpError : CreateResult → Bool
  | .httpError _ _ => true
  | .ok _ _ _ => false

def invalidPhoneDetail : List Char :=
  "Invalid phone number format. Use E.164 like +15551234567".toList

/-- `create_message` from `src/main.py`: phone check, provider call, persist,
response. `now` is the `datetime.now(timezone.utc).isoformat()` string. -/
def create_message (creds : Credentials) (net : NetOutcome) (now : List Char)
    (store : Store) (toAddr body : List Char) : CreateResult × Store :=
  if invalidPhone toAddr then
    (.httpError 400 invalidPhoneDetail, store)
  else
    let provider_result := send_sms_via_twilio creds net toAddr body
    let message_doc : MessageRecord :=
      { toAddr := toAddr
        body := body
        status := provider_result.status
        provider := provider_result.provider
        sid := provider_result.sid
        error := provider_result.error }
    let inserted := create_document store message_doc
    (.ok message_doc inserted.1 now, inserted.2)

/-- `list_messages` from `src/main.py` (`GET /api/messages`). -/
def list_messages (store : Store) (limit : Nat) : List Doc :=
  (get_documents store limit).map serialize_doc

/-- The record inside a 200 response, if any. -/
def CreateResult.getRecord : CreateResult → Option MessageRecord
  | .ok r _ _ => some r
  | .httpError _ _ => none

/-! ### Helper lemmas -/

/-- The handler's phone check accepts exactly the strings of the shape `+`
followed by 7 to 17 isdigit characters. -/
theorem invalidPhone_iff_isdigit_shape (s : List Char) :
    invalidPhone s = false ↔ matchesIsdigitPattern s = true := by
  cases s with
  | nil => simp [invalidPhone, matchesIsdigitPattern, startsWithPlus]
  | cons c rest =>
    cases rest with
    | nil =>
      simp [invalidPhone, matchesIsdigitPattern, startsWithPlus, pyIsdigit]
    | cons r rs =>
      simp only [invalidPhone, matchesIsdigitPattern, startsWithPlus, pyIsdigit,
        List.drop_succ_cons, List.drop_zero, List.length_cons, List.isEmpty_cons,
        Bool.or_eq_false_iff, Bool.and_eq_true, Bool.not_eq_false',
        Bool.not_eq_true', decide_eq_false_iff_not, decide_eq_true_eq,
        Bool.false_and, Bool.not_false, Bool.true_and, not_lt]
      constructor
      · rintro ⟨⟨hab, hc⟩, hd⟩
        exact ⟨⟨hab, by omega⟩, by omega⟩
      · rintro ⟨⟨hab, hc⟩, hd⟩
        exact ⟨⟨hab, by omega⟩, by omega⟩

/-- The gateway's result in simulation mode, as one equation. -/
theorem send_simulation_eq (creds : Credentials) (net : NetOutcome)
    (toAddr body : List Char) (h : creds.configured = false) :
    send_sms_via_twilio creds net toAddr body =
      { provider := some "twilio".toList, status := "queued".toList,
        sid := none, error := some simulationError } := by
  simp [send_sms_via_twilio, h]

theorem lookupDoc_cons (p : List Char × Value) (d : Doc) (k : List Char) :
    lookupDoc (p :: d) k = if p.1 == k then some p.2 else lookupDoc d k := by
  cases h : p.1 == k <;> simp [lookupDoc, List.find?_cons, h]

theorem containsKey_cons (p : List Char × Value) (d : Doc) (k : List Char) :
    containsKey (p :: d) k = (p.1 == k || containsKey d k) := by
  simp [containsKey]

theorem lookupDoc_none_of_not_containsKey (d : Doc) (k : List Char)
    (h : containsKey d k = false) : lookupDoc d k = none := by
  induction d with
  | nil => rfl
  | cons p d ih =>
    rw [containsKey_cons, Bool.or_eq_false_iff] at h
    rw [lookupDoc_cons, if_neg (by simp [h.1]), ih h.2]

theorem isoRender_not_datetime (v : Value) : (isoRender v).isDatetime = false := by
  cases v <;> rfl

theorem lookupDoc_map_isoRender (d : Doc) (k : List Char) :
    lookupDoc (d.map (fun p => (p.1, isoRender p.2))) k
      = (lookupDoc d k).map isoRender := by
  induction d with
  | nil => rfl
  | cons p d ih =>
    rw [List.map_cons, lookupDoc_cons, lookupDoc_cons]
    cases h : p.1 == k <;> simp [h, ih]

theorem containsKey_map_isoRender (d : Doc) (k : List Char) :
    containsKey (d.map (fun p => (p.1, isoRender p.2))) k = containsKey d k := by
  induction d with
  | nil => rfl
  | cons p d ih => simp [containsKey_cons, ih]

theorem lookupDoc_eraseKey_ne (d : Doc) (k k' : List Char) (h : k' ≠ k) :
    lookupDoc (eraseKey d k) k' = lookupDoc d k' := by
  have hkk : (k == k') = false := by
    simp only [beq_eq_false_iff_ne, ne_eq]
    exact fun hk => h hk.symm
  induction d with
  | nil => rfl
  | cons p d ih =>
    rw [eraseKey, List.filter_cons]
    by_cases hpk : (p.1 != k) = true
    · rw [if_pos hpk, lookupDoc_cons, lookupDoc_cons, ← eraseKey, ih]
    · have hp : p.1 = k := by simpa using hpk
      rw [if_neg hpk, ← eraseKey, ih, lookupDoc_cons, hp, hkk]
      simp

theorem containsKey_eraseKey_self (d : Doc) (k : List Char) :
    containsKey (eraseKey d k) k = false := by
  induction d with
  | nil => rfl
  | cons p d ih =>
    rw [eraseKey, List.filter_cons]
    by_cases hpk : (p.1 != k) = true
    · rw [if_pos hpk, containsKey_cons, ← eraseKey, ih, Bool.or_false]
      simpa using hpk
    · rw [if_neg hpk, ← eraseKey, ih]

theorem containsKey_eraseKey_ne (d : Doc) (k k' : List Char) (h : k' ≠ k) :
    containsKey (eraseKey d k) k' = containsKey d k' := by
  have hkk : (k == k') = false := by
    simp only [beq_eq_false_iff_ne, ne_eq]
    exact fun hk => h hk.symm
  induction d with
  | nil => rfl
  | cons p d ih =>
    rw [eraseKey, List.filter_cons]
    by_cases hpk : (p.1 != k) = true
    · rw [if_pos hpk, containsKey_cons, containsKey_cons, ← eraseKey, ih]
    · have hp : p.1 = k := by simpa using hpk
      rw [if_neg hpk, ← eraseKey, ih, containsKey_cons, hp, hkk,
        Bool.false_or]

theorem lookupDoc_overwrite_self (d : Doc) (k : List Char) (v : Value)
    (hck : containsKey d k = true) :
    lookupDoc (d.map (fun p => if p.1 == k then (k, v) else p)) k
      = some v := by
  induction d with
  | nil => simp [containsKey] at hck
  | cons p d ih =>
    rw [List.map_cons]
    by_cases hpk : (p.1 == k) = true
    · rw [if_pos hpk, lookupDoc_cons]
      simp
    · rw [containsKey_cons, Bool.or_eq_true] at hck
      have hck2 : containsKey d k = true := by
        rcases hck with hck | hck
        · exact absurd hck hpk
        · exact hck
      rw [if_neg hpk, lookupDoc_cons, if_neg hpk, ih hck2]

theorem lookupDoc_overwrite_ne (d : Doc) (k k' : List Char) (v : Value)
    (h : k' ≠ k) :
    lookupDoc (d.map (fun p => if p.1 == k then (k, v) else p)) k'
      = lookupDoc d k' := by
  have hkk : (k == k') = false := by
    simp only [beq_eq_false_iff_ne, ne_eq]
    exact fun hk => h hk.symm
  induction d with
  | nil => rfl
  | cons p d ih =>
    rw [List.map_cons]
    by_cases hpk : (p.1 == k) = true
    · have hp : p.1 = k := by simpa using hpk
      rw [if_pos hpk, lookupDoc_cons, lookupDoc_cons, ih, hp, hkk]
      simp
    · rw [if_neg hpk, lookupDoc_cons, lookupDoc_cons, ih]

theorem lookupDoc_append_single_self (d : Doc) (k : List Char) (v : Value)
    (hck : containsKey d k = false) :
    lookupDoc (d ++ [(k, v)]) k = some v := by
  induction d with
  | nil => simp [lookupDoc_cons]
  | cons p d ih =>
    rw [containsKey_cons, Bool.or_eq_false_iff] at hck
    rw [List.cons_append, lookupDoc_cons, if_neg (by simp [hck.1]), ih hck.2]

theorem lookupDoc_append_single_ne (d : Doc) (k k' : List Char) (v : Value)
    (h : k' ≠ k) :
    lookupDoc (d ++ [(k, v)]) k' = lookupDoc d k' := by
  have hkk : (k == k') = false := by
    simp only [beq_eq_false_iff_ne, ne_eq]
    exact fun hk => h hk.symm
  induction d with
  | nil => simp [lookupDoc_cons, lookupDoc, hkk]
  | cons p d ih =>
    rw [List.cons_append, lookupDoc_cons, lookupDoc_cons, ih]

theorem lookupDoc_setKey_self (d : Doc) (k : List Char) (v : Value) :
    lookupDoc (setKey d k v) k = some v := by
  rw [setKey]
  by_cases hck : containsKey d k = true
  · rw [if_pos hck, lookupDoc_overwrite_self d k v hck]
  · rw [if_neg hck, lookupDoc_append_single_self d k v (by simpa using hck)]

theorem lookupDoc_setKey_ne (d : Doc) (k k' : List Char) (v : Value)
    (h : k' ≠ k) : lookupDoc (setKey d k v) k' = lookupDoc d k' := by
  rw [setKey]
  by_cases hck : containsKey d k = true
  · rw [if_pos hck, lookupDoc_overwrite_ne d k k' v h]
  · rw [if_neg hck, lookupDoc_append_single_ne d k k' v h]

theorem containsKey_overwrite (d : Doc) (k k' : List Char) (v : Value) :
    containsKey (d.map (fun p => if p.1 == k then (k, v) else p)) k'
      = containsKey d k' := by
  induction d with
  | nil => rfl
  | cons p d ih =>
    rw [List.map_cons]
    by_cases hpk : (p.1 == k) = true
    · have hp : p.1 = k := by simpa using hpk
      rw [if_pos hpk, containsKey_cons, containsKey_cons, ih, hp]
    · rw [if_neg hpk, containsKey_cons, containsKey_cons, ih]

theorem containsKey_setKey_ne (d : Doc) (k k' : List Char) (v : Value)
    (h : k' ≠ k) : containsKey (setKey d k v) k' = containsKey d k' := by
  have hkk : (k == k') = false := by
    simp only [beq_eq_false_iff_ne, ne_eq]
    exact fun hk => h hk.symm
  rw [setKey]
  by_cases hck : containsKey d k = true
  · rw [if_pos hck, containsKey_overwrite]
  · rw [if_neg hck, containsKey, List.any_append]
    simp only [List.any_cons, List.any_nil, Bool.or_false, hkk]
    rfl


theorem serialize_doc_of_hasId (doc : Doc)
    (h : containsKey doc ("_id".toList) = true) :
    serialize_doc doc =
      (setKey (eraseKey doc ("_id".toList)) ("id".toList)
        (.vstr (pyStr ((lookupDoc doc ("_id".toList)).getD .vnull)))).map
        (fun p => (p.1, isoRender p.2)) := by
  have h' : containsKey doc ['_', 'i', 'd'] = true := by simpa using h
  rw [serialize_doc]
  simp [h']

theorem serialize_doc_of_noId (doc : Doc)
    (h : containsKey doc ("_id".toList) = false) :
    serialize_doc doc = doc.map (fun p => (p.1, isoRender p.2)) := by
  have h' : containsKey doc ['_', 'i', 'd'] = false := by simpa using h
  rw [serialize_doc]
  simp [h']

theorem serialize_doc_lookup_frame (doc : Doc) (k : List Char)
    (h1 : k ≠ "_id".toList) (h2 : k ≠ "id".toList) :
    lookupDoc (serialize_doc doc) k = (lookupDoc doc k).map isoRender := by
  by_cases hid : containsKey doc ("_id".toList) = true
  · rw [serialize_doc_of_hasId doc hid, lookupDoc_map_isoRender,
      lookupDoc_setKey_ne _ _ _ _ h2, lookupDoc_eraseKey_ne _ _ _ h1]
  · rw [serialize_doc_of_noId doc (by simpa using hid), lookupDoc_map_isoRender]

theorem serialize_doc_removes_internal_id (doc : Doc) :
    containsKey (serialize_doc doc) ("_id".toList) = false := by
  by_cases hid : containsKey doc ("_id".toList) = true
  · rw [serialize_doc_of_hasId doc hid, containsKey_map_isoRender,
      containsKey_setKey_ne _ _ _ _ (by decide), containsKey_eraseKey_self]
  · rw [serialize_doc_of_noId doc (by simpa using hid),
      containsKey_map_isoRender]
    simpa using hid

theorem serialize_doc_sets_id (doc : Doc)
    (h : containsKey doc ("_id".toList) = true) :
    lookupDoc (serialize_doc doc) ("id".toList)
      = some (.vstr (pyStr ((lookupDoc doc ("_id".toList)).getD .vnull))) := by
  rw [serialize_doc_of_hasId doc h, lookupDoc_map_isoRender,
    lookupDoc_setKey_self]
  rfl

theorem mem_map_isoRender_not_datetime (d : Doc) :
    ∀ p ∈ d.map (fun q => (q.1, isoRender q.2)), (p.2).isDatetime = false := by
  intro p hp
  obtain ⟨q, -, rfl⟩ := List.mem_map.mp hp
  exact isoRender_not_datetime q.2

theorem serialize_doc_no_datetime (doc : Doc) :
    ∀ p ∈ serialize_doc doc, (p.2).isDatetime = false := by
  by_cases hid : containsKey doc ("_id".toList) = true
  · rw [serialize_doc_of_hasId doc hid]
    exact mem_map_isoRender_not_datetime _
  · rw [serialize_doc_of_noId doc (by simpa using hid)]
    exact mem_map_isoRender_not_datetime _

/-- C1 counterexample: the string `+¹¹¹¹¹¹¹` — a `+` followed by seven
superscript-one characters (U+00B9) — does not match `^\+\d{7,17}$`, since
`\d` does not match `¹`; but `str.isdigit()` accepts `¹`, so the handler's
check passes: `create_message` does not fail with 400, it returns the 200
response and persists a record. -/
theorem nonmatching_superscript_phone_accepted :
    matchesPhonePattern ('+' :: List.replicate 7 '¹') = false
    ∧ invalidPhone ('+' :: List.replicate 7 '¹') = false
    ∧ ((create_message ⟨none, none, none⟩ (.exn []) [] ⟨[], 0⟩
        ('+' :: List.replicate 7 '¹') ("hi".toList)).1).isHttpError = false
    ∧ ((create_message ⟨none, none, none⟩ (.exn []) [] ⟨[], 0⟩
        ('+' :: List.replicate 7 '¹') ("hi".toList)).2).docs.length = 1 :=
  ⟨by decide, by decide, by decide, by decide⟩

/-- C1 (amended): for every request whose `to` is not a leading `+`
followed by 7 to 17 characters of Python's isdigit class (a class strictly
wider than the regex `\d`), `create_message` fails with the 400 validation
error and returns the store unchanged; the result does not depend on the
credentials or the network, so no provider call and no persistence occur. -/
theorem createMessage_rejects_invalid_phone
    (creds : Credentials) (net : NetOutcome) (now : List Char) (store : Store)
    (toAddr body : List Char) (h : matchesIsdigitPattern toAddr = false) :
    create_message creds net now store toAddr body =
      (.httpError 400 invalidPhoneDetail, store) := by
  have hv : invalidPhone toAddr = true := by
    cases hiv : invalidPhone toAddr with
    | true => rfl
    | false =>
      rw [(invalidPhone_iff_isdigit_shape toAddr).mp hiv] at h
      exact absurd h (by simp)
  simp [create_message, hv]

theorem createMessage_rejects_invalid_phone_witness :
    matchesIsdigitPattern ("+123".toList) = false ∧
    create_message ⟨none, none, none⟩ (.exn []) [] ⟨[], 0⟩
        ("+123".toList) ("hi".toList) =
      (.httpError 400 invalidPhoneDetail, ⟨[], 0⟩) :=
  ⟨by decide,
   createMessage_rejects_invalid_phone ⟨none, none, none⟩ (.exn []) [] ⟨[], 0⟩
     ("+123".toList) ("hi".toList) (by decide)⟩

/-- C2: once the phone check passes, `create_message` returns the 200
response carrying the composed record for every credential state and every
network outcome: the provider result's status/provider/sid/error land in the
record's fields and no HTTP error is raised. -/
theorem createMessage_returns_ok_after_validation
    (creds : Credentials) (net : NetOutcome) (now : List Char) (store : Store)
    (toAddr body : List Char) (h : invalidPhone toAddr = false) :
    (create_message creds net now store toAddr body).1 =
      .ok { toAddr := toAddr, body := body,
            status := (send_sms_via_twilio creds net toAddr body).status,
            provider := (send_sms_via_twilio creds net toAddr body).provider,
            sid := (send_sms_via_twilio creds net toAddr body).sid,
            error := (send_sms_via_twilio creds net toAddr body).error }
        ((toString store.nextId).toList) now := by
  simp [create_message, h, create_document]

theorem createMessage_returns_ok_after_validation_witness :
    invalidPhone ("+15551234567".toList) = false ∧
    (create_message ⟨none, none, none⟩ (.exn "boom".toList) "t".toList ⟨[], 0⟩
        ("+15551234567".toList) ("hello".toList)).1 =
      .ok { toAddr := "+15551234567".toList, body := "hello".toList,
            status := (send_sms_via_twilio ⟨none, none, none⟩ (.exn "boom".toList)
              ("+15551234567".toList) ("hello".toList)).status,
            provider := (send_sms_via_twilio ⟨none, none, none⟩ (.exn "boom".toList)
              ("+15551234567".toList) ("hello".toList)).provider,
            sid := (send_sms_via_twilio ⟨none, none, none⟩ (.exn "boom".toList)
              ("+15551234567".toList) ("hello".toList)).sid,
            error := (send_sms_via_twilio ⟨none, none, none⟩ (.exn "boom".toList)
              ("+15551234567".toList) ("hello".toList)).error }
        ("0".toList) ("t".toList) :=
  ⟨by decide,
   createMessage_returns_ok_after_validation ⟨none, none, none⟩
     (.exn "boom".toList) "t".toList ⟨[], 0⟩
     ("+15551234567".toList) ("hello".toList) (by decide)⟩

/-- C3: with any of the three credentials unset, the gateway returns
immediately with status "queued", null sid and a non-null error, and its
result is independent of the network outcome (no network I/O); every valid
`create_message` request in this mode returns and persists a record with
exactly those field values. -/
theorem simulation_mode_queues_and_persists
    (creds : Credentials) (h : creds.configured = false) :
    (∀ net net' toAddr body,
        send_sms_via_twilio creds net toAddr body =
          { provider := some "twilio".toList, status := "queued".toList,
            sid := none, error := some simulationError }
        ∧ send_sms_via_twilio creds net toAddr body
            = send_sms_via_twilio creds net' toAddr body)
    ∧ (∀ net now store toAddr body, invalidPhone toAddr = false →
        create_message creds net now store toAddr body =
          (.ok { toAddr := toAddr, body := body, status := "queued".toList,
                 provider := some "twilio".toList, sid := none,
                 error := some simulationError }
             ((toString store.nextId).toList) now,
           { docs := store.docs ++
               [recordToDoc ((toString store.nextId).toList)
                 { toAddr := toAddr, body := body, status := "queued".toList,
                   provider := some "twilio".toList, sid := none,
                   error := some simulationError }],
             nextId := store.nextId + 1 })) := by
  refine ⟨fun net net' a b =>
    ⟨send_simulation_eq creds net a b h,
     (send_simulation_eq creds net a b h).trans
       (send_simulation_eq creds net' a b h).symm⟩, ?_⟩
  intro net now store a b hv
  simp [create_message, hv, create_document, send_simulation_eq creds net a b h]

theorem simulation_mode_queues_and_persists_witness :
    (⟨none, none, none⟩ : Credentials).configured = false ∧
    send_sms_via_twilio ⟨none, none, none⟩ (.exn "x".toList)
        ("+15551234567".toList) ("hello".toList) =
      { provider := some "twilio".toList, status := "queued".toList,
        sid := none, error := some simulationError } :=
  ⟨by decide,
   ((simulation_mode_queues_and_persists ⟨none, none, none⟩ (by decide)).1
     (.exn "x".toList) (.exn "x".toList)
     ("+15551234567".toList) ("hello".toList)).1⟩

/-- C4: with credentials configured, for every provider response with a 2xx
status code the gateway returns the payload's status (defaulting to "sent"
when the field is absent), the payload's sid, and a null error. -/
theorem provider_success_normalization
    (creds : Credentials) (code : Nat) (payload : Payload)
    (toAddr body : List Char) (hc : creds.configured = true)
    (h1 : 200 ≤ code) (h2 : code < 300) :
    send_sms_via_twilio creds (.response code payload) toAddr body =
      { provider := some "twilio".toList,
        status := payload.status.getD "sent".toList,
        sid := payload.sid, error := none } := by
  simp only [send_sms_via_twilio, hc, Bool.not_true, Bool.false_eq_true,
    if_false]
  rw [if_pos ⟨h1, h2⟩]

theorem provider_success_normalization_witness :
    (⟨some "sid".toList, some "tok".toList, some "from".toList⟩
        : Credentials).configured = true ∧
    200 ≤ 200 ∧ 200 < 300 ∧
    send_sms_via_twilio ⟨some "sid".toList, some "tok".toList, some "from".toList⟩
        (.response 200 ⟨some "sent".toList, some "SM123".toList, none⟩)
        ("+15551234567".toList) ("hello".toList) =
      { provider := some "twilio".toList,
        status := (some "sent".toList).getD "sent".toList,
        sid := some "SM123".toList, error := none } :=
  ⟨by decide, by decide, by decide,
   provider_success_normalization
     ⟨some "sid".toList, some "tok".toList, some "from".toList⟩ 200
     ⟨some "sent".toList, some "SM123".toList, none⟩
     ("+15551234567".toList) ("hello".toList) (by decide) (by decide) (by decide)⟩

/-- C5: with credentials configured, delivery that does not succeed always
yields status "failed": for a non-2xx response, sid is the payload's sid and
the error is the payload's message unless that is absent or empty, in which
case it is the generic "HTTP code" string; for a transport-level exception,
sid is null and the error is the exception text. -/
theorem provider_failure_normalization (creds : Credentials)
    (hc : creds.configured = true) :
    (∀ code payload toAddr body, ¬(200 ≤ code ∧ code < 300) →
        send_sms_via_twilio creds (.response code payload) toAddr body =
          { provider := some "twilio".toList, status := "failed".toList,
            sid := payload.sid, error := some (failureError payload code) })
    ∧ (∀ text toAddr body,
        send_sms_via_twilio creds (.exn text) toAddr body =
          { provider := some "twilio".toList, status := "failed".toList,
            sid := none, error := some text }) := by
  constructor
  · intro code payload a b hno
    simp only [send_sms_via_twilio, hc, Bool.not_true, Bool.false_eq_true,
      if_false]
    rw [if_neg hno]
  · intro text a b
    simp [send_sms_via_twilio, hc]

theorem provider_failure_normalization_witness :
    (⟨some "sid".toList, some "tok".toList, some "from".toList⟩
        : Credentials).configured = true ∧
    ¬(200 ≤ 500 ∧ 500 < 300) ∧
    send_sms_via_twilio ⟨some "sid".toList, some "tok".toList, some "from".toList⟩
        (.response 500 ⟨none, none, some "bad request".toList⟩)
        ("+15551234567".toList) ("hello".toList) =
      { provider := some "twilio".toList, status := "failed".toList,
        sid := none,
        error := some (failureError ⟨none, none, some "bad request".toList⟩ 500) } ∧
    send_sms_via_twilio ⟨some "sid".toList, some "tok".toList, some "from".toList⟩
        (.exn "timeout".toList) ("+15551234567".toList) ("hello".toList) =
      { provider := some "twilio".toList, status := "failed".toList,
        sid := none, error := some "timeout".toList } :=
  ⟨by decide, by decide,
   (provider_failure_normalization
       ⟨some "sid".toList, some "tok".toList, some "from".toList⟩ (by decide)).1
     500 ⟨none, none, some "bad request".toList⟩
     ("+15551234567".toList) ("hello".toList) (by decide),
   (provider_failure_normalization
       ⟨some "sid".toList, some "tok".toList, some "from".toList⟩ (by decide)).2
     ("timeout".toList) ("+15551234567".toList) ("hello".toList)⟩

/-- Every branch of the gateway sets the provider field to "twilio". -/
theorem send_provider_always_twilio (creds : Credentials) (net : NetOutcome)
    (toAddr body : List Char) :
    (send_sms_via_twilio creds net toAddr body).provider
      = some "twilio".toList := by
  by_cases h : creds.configured = true
  · simp only [send_sms_via_twilio, h, Bool.not_true, Bool.false_eq_true,
      if_false]
    cases net with
    | response code payload =>
      dsimp only
      by_cases h2 : 200 ≤ code ∧ code < 300
      · rw [if_pos h2]
      · rw [if_neg h2]
    | exn text => rfl
  · rw [send_simulation_eq creds net toAddr body (by simpa using h)]

/-- C6 counterexample: the string "+1234567" has only 7 digits after the
leading '+', yet the phone check accepts it and `create_message` does not
raise the 400 error, contradicting the claimed minimum of 8 digits. -/
theorem phone_with_seven_digits_accepted :
    invalidPhone ("+1234567".toList) = false
    ∧ (("+1234567".toList).drop 1).length = 7
    ∧ (("+1234567".toList).drop 1).all Char.isDigit = true
    ∧ ((create_message ⟨none, none, none⟩ (.exn []) [] ⟨[], 0⟩
        ("+1234567".toList) ("hi".toList)).1).isHttpError = false :=
  ⟨by decide, by decide, by decide, by decide⟩

/-- C6 (amended): every `to` accepted by the phone check is a leading '+'
followed by 7 to 17 characters of Python's isdigit class (not necessarily
`\d` digits), with total length 8 to 18; no string whose isdigit part has
fewer than 7 characters is accepted. -/
theorem accepted_phone_shape (s : List Char)
    (h : invalidPhone s = false) :
    matchesIsdigitPattern s = true ∧ 8 ≤ s.length ∧ s.length ≤ 18 := by
  have hm := (invalidPhone_iff_isdigit_shape s).mp h
  cases s with
  | nil => exact absurd hm (by simp [matchesIsdigitPattern])
  | cons c rest =>
    simp only [matchesIsdigitPattern, Bool.and_eq_true, decide_eq_true_eq]
      at hm
    obtain ⟨⟨-, h7⟩, h17⟩ := hm
    exact ⟨(invalidPhone_iff_isdigit_shape _).mp h, by simp; omega,
      by simp; omega⟩

theorem accepted_phone_shape_witness :
    invalidPhone ("+1234567".toList) = false ∧
    (matchesIsdigitPattern ("+1234567".toList) = true
      ∧ 8 ≤ ("+1234567".toList).length ∧ ("+1234567".toList).length ≤ 18) :=
  ⟨by decide, accepted_phone_shape ("+1234567".toList) (by decide)⟩

/-- C7 counterexample: with credentials configured, a 500 provider response
whose payload carries a sid produces a record with status "failed" and a
non-null sid, so a record of the failure branch can have a non-null sid. -/
theorem failed_record_with_nonnull_sid :
    (((create_message ⟨some "s".toList, some "t".toList, some "f".toList⟩
        (.response 500 ⟨none, some "SM1".toList, some "boom".toList⟩)
        [] ⟨[], 0⟩ ("+15551234567".toList) ("hi".toList)).1).getRecord).map
      (fun r => (r.status, r.sid)) =
      some ("failed".toList, some "SM1".toList) := by decide

/-- C7 (amended): sid is null in the simulation-mode result and in the
transport-failure result; in the HTTP-response branches (success or failure)
sid is copied from the provider payload, so it can be non-null on an HTTP
failure. -/
theorem sid_null_except_from_payload :
    (∀ creds net toAddr body, creds.configured = false →
        (send_sms_via_twilio creds net toAddr body).sid = none)
    ∧ (∀ creds text toAddr body,
        (send_sms_via_twilio creds (.exn text) toAddr body).sid = none)
    ∧ (∀ creds code payload toAddr body, creds.configured = true →
        (send_sms_via_twilio creds (.response code payload) toAddr body).sid
          = payload.sid) := by
  refine ⟨?_, ?_, ?_⟩
  · intro creds net a b h
    rw [send_simulation_eq creds net a b h]
  · intro creds text a b
    by_cases h : creds.configured = true
    · simp [send_sms_via_twilio, h]
    · rw [send_simulation_eq creds _ a b (by simpa using h)]
  · intro creds code payload a b h
    simp only [send_sms_via_twilio, h, Bool.not_true, Bool.false_eq_true,
      if_false]
    by_cases h2 : 200 ≤ code ∧ code < 300
    · rw [if_pos h2]
    · rw [if_neg h2]

theorem sid_null_except_from_payload_witness :
    ((⟨none, none, none⟩ : Credentials).configured = false ∧
      (send_sms_via_twilio ⟨none, none, none⟩ (.exn []) ("+1".toList)
        ("b".toList)).sid = none)
    ∧ (send_sms_via_twilio ⟨some "s".toList, some "t".toList, some "f".toList⟩
        (.exn "down".toList) ("+1".toList) ("b".toList)).sid = none
    ∧ ((⟨some "s".toList, some "t".toList, some "f".toList⟩
          : Credentials).configured = true ∧
      (send_sms_via_twilio ⟨some "s".toList, some "t".toList, some "f".toList⟩
        (.response 500 ⟨none, some "SM1".toList, none⟩) ("+1".toList)
        ("b".toList)).sid = some "SM1".toList) :=
  ⟨⟨by decide,
    sid_null_except_from_payload.1 ⟨none, none, none⟩ (.exn []) ("+1".toList)
      ("b".toList) (by decide)⟩,
   sid_null_except_from_payload.2.1
     ⟨some "s".toList, some "t".toList, some "f".toList⟩ ("down".toList)
     ("+1".toList) ("b".toList),
   by decide,
   sid_null_except_from_payload.2.2
     ⟨some "s".toList, some "t".toList, some "f".toList⟩ 500
     ⟨none, some "SM1".toList, none⟩ ("+1".toList) ("b".toList) (by decide)⟩

/-- C8 counterexample: in simulation mode (credentials absent) the record
produced by `create_message` carries provider "twilio", not an absent or
null provider. -/
theorem simulation_record_provider_is_twilio :
    (((create_message ⟨none, none, none⟩ (.exn []) [] ⟨[], 0⟩
        ("+15551234567".toList) ("hi".toList)).1).getRecord).map
      (fun r => r.provider) = some (some "twilio".toList) := by decide

/-- C8 (amended): in every record produced by `create_message`, simulation
mode included, the provider field is the string "twilio". -/
theorem record_provider_always_twilio
    (creds : Credentials) (net : NetOutcome) (now : List Char) (store : Store)
    (toAddr body : List Char) (h : invalidPhone toAddr = false) :
    (((create_message creds net now store toAddr body).1).getRecord).map
      (fun r => r.provider) = some (some "twilio".toList) := by
  simp [create_message, h, create_document, CreateResult.getRecord,
    send_provider_always_twilio]

theorem record_provider_always_twilio_witness :
    invalidPhone ("+15551234567".toList) = false ∧
    (((create_message ⟨none, none, none⟩ (.exn []) [] ⟨[], 0⟩
        ("+15551234567".toList) ("hi".toList)).1).getRecord).map
      (fun r => r.provider) = some (some "twilio".toList) :=
  ⟨by decide,
   record_provider_always_twilio ⟨none, none, none⟩ (.exn []) [] ⟨[], 0⟩
     ("+15551234567".toList) ("hi".toList) (by decide)⟩

/-- C9: for a store whose documents all carry a store-internal `_id` and no
`id` key (as every document inserted by `create_message` does),
`list_messages` returns at most `limit` records, and every returned record
has the `_id` key removed, carries a string-valued `id` key, has every
datetime-valued field rendered as its ISO string, and no datetime value
left. -/
theorem listMessages_limit_and_serialization (store : Store) (limit : Nat)
    (hw : ∀ d ∈ store.docs, containsKey d ("_id".toList) = true)
    (hw2 : ∀ d ∈ store.docs, containsKey d ("id".toList) = false) :
    (list_messages store limit).length ≤ limit
    ∧ ∀ d0 ∈ get_documents store limit,
        serialize_doc d0 ∈ list_messages store limit
        ∧ containsKey (serialize_doc d0) ("_id".toList) = false
        ∧ (∃ s, lookupDoc (serialize_doc d0) ("id".toList) = some (.vstr s))
        ∧ (∀ k v, k ≠ "_id".toList → lookupDoc d0 k = some v →
            lookupDoc (serialize_doc d0) k = some (isoRender v))
        ∧ ∀ p ∈ serialize_doc d0, (p.2).isDatetime = false := by
  constructor
  · rw [list_messages, List.length_map, get_documents, List.length_take]
    exact min_le_left _ _
  · intro d0 hd0
    have hmem : d0 ∈ store.docs := List.take_subset _ _ hd0
    refine ⟨List.mem_map_of_mem _ hd0, serialize_doc_removes_internal_id d0,
      ⟨_, serialize_doc_sets_id d0 (hw d0 hmem)⟩, ?_,
      serialize_doc_no_datetime d0⟩
    intro k v hk1 hlk
    by_cases hk2 : k = "id".toList
    · rw [hk2, lookupDoc_none_of_not_containsKey d0 _ (hw2 d0 hmem)] at hlk
      exact absurd hlk (by simp)
    · rw [serialize_doc_lookup_frame d0 k hk1 hk2, hlk]
      rfl

theorem listMessages_limit_and_serialization_witness :
    (list_messages
        ⟨[[("_id".toList, .vobjid "1".toList),
           ("to".toList, .vstr "+15551234567".toList)]], 2⟩ 2).length ≤ 2
    ∧ containsKey
        (serialize_doc [("_id".toList, .vobjid "1".toList),
          ("to".toList, .vstr "+15551234567".toList)]) ("_id".toList) = false
    ∧ (∃ s, lookupDoc
        (serialize_doc [("_id".toList, .vobjid "1".toList),
          ("to".toList, .vstr "+15551234567".toList)]) ("id".toList)
        = some (.vstr s)) :=
  ⟨(listMessages_limit_and_serialization
      ⟨[[("_id".toList, .vobjid "1".toList),
         ("to".toList, .vstr "+15551234567".toList)]], 2⟩ 2
      (by decide) (by decide)).1,
   ((listMessages_limit_and_serialization
      ⟨[[("_id".toList, .vobjid "1".toList),
         ("to".toList, .vstr "+15551234567".toList)]], 2⟩ 2
      (by decide) (by decide)).2
     [("_id".toList, .vobjid "1".toList),
      ("to".toList, .vstr "+15551234567".toList)] (by decide)).2.1,
   ((listMessages_limit_and_serialization
      ⟨[[("_id".toList, .vobjid "1".toList),
         ("to".toList, .vstr "+15551234567".toList)]], 2⟩ 2
      (by decide) (by decide)).2
     [("_id".toList, .vobjid "1".toList),
      ("to".toList, .vstr "+15551234567".toList)] (by decide)).2.2.1⟩

/-- C10 counterexample: on a document carrying both `_id` and an `id` key,
`serialize_doc` overwrites the existing `id` value (a non-datetime value)
with the string form of `_id`, so a key other than `_id` does not keep its
value unchanged. -/
theorem serializeDoc_overwrites_existing_id :
    lookupDoc [("_id".toList, Value.vobjid "X".toList),
               ("id".toList, Value.vstr "orig".toList)] ("id".toList)
      = some (.vstr "orig".toList)
    ∧ (Value.vstr "orig".toList).isDatetime = false
    ∧ lookupDoc (serialize_doc [("_id".toList, Value.vobjid "X".toList),
        ("id".toList, Value.vstr "orig".toList)]) ("id".toList)
      = some (.vstr "X".toList) :=
  ⟨by decide, by decide, by decide⟩

/-- C10 (amended): `serialize_doc` changes nothing but `_id`, `id` and
datetime rendering: every key other than `_id` and `id` keeps its value in
the output, unchanged unless it is a datetime, which is rendered as its ISO
string; when the input has no `_id` key the whole document is kept with only
datetime rendering applied, so in particular no `id` key is added. -/
theorem serializeDoc_frame :
    (∀ (doc : Doc) (k : List Char), k ≠ "_id".toList → k ≠ "id".toList →
        lookupDoc (serialize_doc doc) k = (lookupDoc doc k).map isoRender)
    ∧ (∀ doc : Doc, containsKey doc ("_id".toList) = false →
        serialize_doc doc = doc.map (fun p => (p.1, isoRender p.2)))
    ∧ (∀ doc : Doc, containsKey doc ("_id".toList) = false →
        containsKey (serialize_doc doc) ("id".toList)
          = containsKey doc ("id".toList)) := by
  refine ⟨serialize_doc_lookup_frame, serialize_doc_of_noId, ?_⟩
  intro doc h
  rw [serialize_doc_of_noId doc h, containsKey_map_isoRender]

theorem serializeDoc_frame_witness :
    lookupDoc (serialize_doc [("_id".toList, Value.vobjid "X".toList),
        ("when".toList, Value.vdatetime "2024-01-01T00:00:00".toList)])
        ("when".toList)
      = (lookupDoc [("_id".toList, Value.vobjid "X".toList),
          ("when".toList, Value.vdatetime "2024-01-01T00:00:00".toList)]
          ("when".toList)).map isoRender
    ∧ serialize_doc [("to".toList, Value.vstr "+15551234567".toList)]
        = [("to".toList, Value.vstr "+15551234567".toList)].map
            (fun p => (p.1, isoRender p.2))
    ∧ containsKey
        (serialize_doc [("to".toList, Value.vstr "+15551234567".toList)])
        ("id".toList)
      = containsKey [("to".toList, Value.vstr "+15551234567".toList)]
        ("id".toList) :=
  ⟨serializeDoc_frame.1 [("_id".toList, Value.vobjid "X".toList),
      ("when".toList, Value.vdatetime "2024-01-01T00:00:00".toList)]
      ("when".toList) (by decide) (by decide),
   serializeDoc_frame.2.1 [("to".toList, Value.vstr "+15551234567".toList)]
     (by decide),
   serializeDoc_frame.2.2 [("to".toList, Value.vstr "+15551234567".toList)]
     (by decide)⟩

end SmsApi
